import Mathlib

/-!
Shallow embedding of the carousel pipeline of `src/buy_assistant.py`
(`BuyAssistant.chat`, lines 85-160) together with the Flask edge in
`src/main.py`.

Modelling conventions:
* The Intent Planner result (`response_dict`) is the `Plan` record: the parsed
  `{message, categories:[{name, questions}]}` payload.  Its production (LLM
  call + pydantic parsing) is an external collaborator and is taken as input.
* `self.vectorstore.similarity_search_with_score(query, k=1)` is the input
  function `lookup : String → Option (String × Float)`: with `k = 1` the
  index returns either one `(page_content, score)` pair or nothing
  (`none` models the empty result list, whose `[0]` raises `IndexError`).
* `requests.get(...)` followed by `r.json()["results"]` is the input function
  `fetch : String → Option (List RawResult)`; `none` models any exception
  raised there (network error or malformed JSON body), which the source does
  not catch.  A raw result (JSON object) is an association list of string
  fields.
* Uncaught Python exceptions are `Except.error`: a failing listing fetch,
  a raw result without an `"id"` key, and the `IndexError` of the two
  `list(filter(...))[0]` lookups in the carousel-assembly loops (the latter
  is `PipelineError.internalFault`).
* Python's `set(...)` iteration order is unspecified; it is modelled by
  `List.dedup` (one occurrence per distinct element, a fixed order).
* `str.split("\n")` and `str.replace(old, new)` are embedded as the
  char-list functions `splitLines` / `strRep` below, because the library
  versions do not reduce in the kernel.
-/

/-- Python `str.split("\n")` on the character list: split at every newline,
never collapsing, with `[""]` for the empty string. -/
def splitCharsOnNl : List Char → List (List Char)
  | [] => [[]]
  | c :: rest =>
    let r := splitCharsOnNl rest
    if c = '\n' then [] :: r
    else
      match r with
      | [] => [[c]]
      | h :: t => (c :: h) :: t

/-- Python `s.split("\n")`. -/
def splitLines (s : String) : List String :=
  (splitCharsOnNl s.data).map (fun cs => String.mk cs)

/-- Left-to-right, non-overlapping replacement of `pat` by `repl` on a
character list (Python `str.replace` for a non-empty pattern).  The `Nat`
argument counts characters of a matched occurrence still to be consumed
without being copied to the output. -/
def replaceAux (pat repl : List Char) : Nat → List Char → List Char
  | _, [] => []
  | Nat.succ k, _ :: rest => replaceAux pat repl k rest
  | 0, c :: rest =>
    if pat.isPrefixOf (c :: rest) then
      repl ++ replaceAux pat repl (pat.length - 1) rest
    else
      c :: replaceAux pat repl 0 rest

/-- Python `str.replace` on character lists. -/
def replaceChars (pat repl l : List Char) : List Char :=
  replaceAux pat repl 0 l

/-- Python `s.replace(pat, repl)`. -/
def strRep (s pat repl : String) : String :=
  String.mk (replaceChars pat.data repl.data s.data)

/-- `CategoryResponse` of `buy_assistant.py` (a proposal of the plan). -/
structure CategoryResponse where
  name : String
  questions : List String
deriving Repr, DecidableEq

/-- `BuyAssistantResponse` of `buy_assistant.py`, after `obj_to_dict`:
the plan the Intent Planner produced. -/
structure Plan where
  message : String
  categories : List CategoryResponse
deriving Repr, DecidableEq

/-- One entry of the `categories` list built in step 3 of `chat`
(lines 104-115). -/
structure ResolvedCategory where
  category_raw : String
  category_id : String
  category_name : String
  domain_id : String
  similarity_score : Float
deriving Repr

/-- One mapped search result (lines 125-132 of `chat`). -/
structure Listing where
  item_id : String
  title : String
  permalink : String
  thumbnail : String
  category_id : String
  domain_id : String
deriving Repr, DecidableEq

/-- One entry of `search_results` (lines 134-137 of `chat`). -/
structure ListingBatch where
  category_id : String
  results : List Listing
deriving Repr, DecidableEq

/-- One carousel of the final payload (steps 5 and 6 of `chat`): the merge
`{**carousel, **category}` plus the `questions` key added in step 6. -/
structure Carousel where
  items : List Listing
  category_raw : String
  category_id : String
  category_name : String
  domain_id : String
  similarity_score : Float
  questions : List String
deriving Repr

/-- The dictionary returned by `chat` (lines 157-160). -/
structure Response where
  message : String
  carousels : List Carousel
deriving Repr

/-- An uncaught Python exception escaping `chat`. -/
inductive PipelineError where
  | fetchFailed (category_id : String)
  | missingId (category_id : String)
  | internalFault
deriving Repr, DecidableEq

/-- A raw JSON result object: an association list of string fields. -/
abbrev RawResult := List (String × String)

/-- Python dict lookup `result[k]` / `k in result` on a raw JSON object. -/
def dictGet (result : RawResult) (k : String) : Option String :=
  (result.find? (fun kv => kv.1 == k)).map (fun kv => kv.2)

namespace BuyAssistant

def CAROUSELS_TO_BUILD : Nat := 4
def QUESTIONS_BY_CATEGORY : Nat := 2
def ITEMS_BY_CAROUSEL : Nat := 5

/-- Lines 106-115 of `chat` for one proposed category name: the `k = 1`
nearest-neighbour query, the positional parse of the matched descriptor
(`page_content.split("\n")` indices 4, 5 and 7 with their prefix
replacements) and the similarity score.  `none` is the `except IndexError`
branch: an empty query result, or a descriptor with fewer than 8 lines. -/
def resolveCategory (lookup : String → Option (String × Float))
    (category : String) : Option ResolvedCategory :=
  match lookup category with
  | none => none
  | some result =>
    let lines := splitLines result.1
    if h : 7 < lines.length then
      some { category_raw := category
           , category_id :=
               strRep (lines.get ⟨4, by omega⟩) "CATEGORY_ID_L3: " ""
           , category_name :=
               strRep (lines.get ⟨5, by omega⟩) "CATEGORY_NAME_L3: " ""
           , domain_id :=
               strRep (lines.get ⟨7, h⟩) "DOMAIN_ID: " ""
           , similarity_score := result.2 }
    else none

/-- The `categories` list after step 3 of `chat`: proposals that raised
`IndexError` are dropped, the rest keep plan order. -/
def resolvedOf (plan : Plan) (lookup : String → Option (String × Float)) :
    List ResolvedCategory :=
  (plan.categories.map (fun x => x.name)).filterMap (resolveCategory lookup)

/-- `uq_category_ids = set(map(lambda x: x["category_id"], categories))`
(line 119), modelled as a duplicate-free list. -/
def uqIdsOf (plan : Plan) (lookup : String → Option (String × Float)) :
    List String :=
  ((resolvedOf plan lookup).map (fun x => x.category_id)).dedup

/-- Lines 125-132 of `chat` for one raw result: `result["id"]` is mandatory
(`none` is the uncaught `KeyError`), the five other fields default to `""`
via the `if "k" in result else ""` guards. -/
def mapListing (result : RawResult) : Option Listing :=
  match dictGet result "id" with
  | none => none
  | some i =>
    some { item_id := i
         , title := (dictGet result "title").getD ""
         , permalink := (dictGet result "permalink").getD ""
         , thumbnail := (dictGet result "thumbnail").getD ""
         , category_id := (dictGet result "category_id").getD ""
         , domain_id := (dictGet result "domain_id").getD "" }

/-- One iteration of the search loop (lines 121-137): the external call,
the mapping of its raw results and the `search_results.append(...)` entry. -/
def fetchOne (fetch : String → Option (List RawResult))
    (category_id : String) : Except PipelineError ListingBatch :=
  match fetch category_id with
  | none => Except.error (PipelineError.fetchFailed category_id)
  | some raws =>
    match raws.mapM mapListing with
    | none => Except.error (PipelineError.missingId category_id)
    | some results => Except.ok { category_id := category_id, results := results }

/-- The whole search loop (lines 120-137): sequential, aborting at the first
uncaught exception. -/
def fetchBatches (fetch : String → Option (List RawResult)) :
    List String → Except PipelineError (List ListingBatch)
  | [] => Except.ok []
  | id :: rest =>
    match fetchOne fetch id with
    | Except.error e => Except.error e
    | Except.ok b =>
      match fetchBatches fetch rest with
      | Except.error e => Except.error e
      | Except.ok bs => Except.ok (b :: bs)

/-- Steps 5 and 6 of `chat` for one resolved category: the batch lookup
`list(filter(...))[0]` (line 146), the domain filter and item cap
(lines 144-147), the merge `{**carousel, **category}` (line 150) and the
questions lookup `list(filter(...))[0]["questions"]` (line 155).  Either
`[0]` on an empty list is an uncaught `IndexError`, `internalFault` here. -/
def buildCarousel (plan : Plan) (searchResults : List ListingBatch)
    (category : ResolvedCategory) : Except PipelineError Carousel :=
  match (searchResults.filter
      (fun x => x.category_id == category.category_id)).head? with
  | none => Except.error PipelineError.internalFault
  | some batch =>
    match (plan.categories.filter
        (fun x => x.name == category.category_raw)).head? with
    | none => Except.error PipelineError.internalFault
    | some proposal =>
      Except.ok
        { items := (batch.results.filter
              (fun x => x.domain_id == category.domain_id)).take ITEMS_BY_CAROUSEL
        , category_raw := category.category_raw
        , category_id := category.category_id
        , category_name := category.category_name
        , domain_id := category.domain_id
        , similarity_score := category.similarity_score
        , questions := proposal.questions }

/-- The carousel loops of steps 5 and 6 over the whole resolved list. -/
def buildCarousels (plan : Plan) (searchResults : List ListingBatch) :
    List ResolvedCategory → Except PipelineError (List Carousel)
  | [] => Except.ok []
  | category :: rest =>
    match buildCarousel plan searchResults category with
    | Except.error e => Except.error e
    | Except.ok c =>
      match buildCarousels plan searchResults rest with
      | Except.error e => Except.error e
      | Except.ok cs => Except.ok (c :: cs)

/-- `BuyAssistant.chat` from the parsed plan on: steps 3-6 and the final
response dictionary.  `Except.error` is an uncaught exception escaping
`chat` (the request fails as a whole, no response is returned). -/
def chat (plan : Plan) (lookup : String → Option (String × Float))
    (fetch : String → Option (List RawResult)) :
    Except PipelineError Response :=
  match fetchBatches fetch (uqIdsOf plan lookup) with
  | Except.error e => Except.error e
  | Except.ok searchResults =>
    match buildCarousels plan searchResults (resolvedOf plan lookup) with
    | Except.error e => Except.error e
    | Except.ok carousels =>
      Except.ok { message := plan.message, carousels := carousels }

end BuyAssistant

/-! Concrete fixtures: a small plan, taxonomy descriptors, raw search results
and external-collaborator functions used to evaluate the pipeline on closed
inputs. -/

/-- A well-formed 8-line taxonomy descriptor for a blenders category. -/
def descLic : String :=
  "CATEGORY_ID_L1: MLA1\nCATEGORY_NAME_L1: Hogar\nCATEGORY_ID_L2: MLA2\nCATEGORY_NAME_L2: Cocina\nCATEGORY_ID_L3: MLA1577\nCATEGORY_NAME_L3: Licuadoras\nTEXT: licuadoras\nDOMAIN_ID: MLA-BLENDERS"

/-- A well-formed 8-line taxonomy descriptor for a pots category. -/
def descOllas : String :=
  "CATEGORY_ID_L1: MLA1\nCATEGORY_NAME_L1: Hogar\nCATEGORY_ID_L2: MLA2\nCATEGORY_NAME_L2: Cocina\nCATEGORY_ID_L3: MLA1594\nCATEGORY_NAME_L3: Ollas\nTEXT: ollas\nDOMAIN_ID: MLA-POTS"

/-- A malformed descriptor: only 2 newline-separated lines. -/
def descBad : String := "CATEGORY_ID_L3: MLAX\nbroken"

/-- A two-proposal plan. -/
def wPlan : Plan :=
  { message := "Hola"
  , categories :=
      [ { name := "Licuadoras", questions := ["q1", "q2"] }
      , { name := "Ollas", questions := ["q3", "q4"] } ] }

/-- A matcher resolving both plan proposals. -/
def wLookup : String → Option (String × Float) := fun nm =>
  if nm == "Licuadoras" then some (descLic, 0.25)
  else if nm == "Ollas" then some (descOllas, 0.5) else none

/-- A matcher with an empty result set for "Ollas". -/
def w6Lookup : String → Option (String × Float) := fun nm =>
  if nm == "Licuadoras" then some (descLic, 0.25) else none

/-- A matcher that always answers, with a very weak (negative) score. -/
def w8Lookup : String → Option (String × Float) := fun _ =>
  some (descLic, -1000.0)

/-- A matcher returning the malformed descriptor for "Ollas". -/
def w10Lookup : String → Option (String × Float) := fun nm =>
  if nm == "Licuadoras" then some (descLic, 0.25)
  else if nm == "Ollas" then some (descBad, 0.9) else none

/-- A raw search result with all six fields present. -/
def wRaw1 : RawResult :=
  [("id", "MLA111"), ("title", "Licuadora X"), ("permalink", "p1"),
   ("thumbnail", "t1"), ("category_id", "MLA1577"), ("domain_id", "MLA-BLENDERS")]

/-- A raw search result missing `permalink`, `thumbnail` and `category_id`,
with a foreign domain. -/
def wRaw2 : RawResult :=
  [("id", "MLA222"), ("title", "Otra"), ("domain_id", "MLA-OTHER")]

/-- A raw search result missing three optional fields, in the pots domain. -/
def wRaw3 : RawResult :=
  [("id", "MLA333"), ("title", "Olla Y"), ("domain_id", "MLA-POTS")]

/-- `wRaw1` after the field mapping. -/
def wListing1 : Listing :=
  ⟨"MLA111", "Licuadora X", "p1", "t1", "MLA1577", "MLA-BLENDERS"⟩

/-- `wRaw2` after the field mapping. -/
def wListing2 : Listing := ⟨"MLA222", "Otra", "", "", "", "MLA-OTHER"⟩

/-- `wRaw3` after the field mapping. -/
def wListing3 : Listing := ⟨"MLA333", "Olla Y", "", "", "", "MLA-POTS"⟩

/-- A listing fetcher that succeeds on every category id. -/
def wFetch : String → Option (List RawResult) := fun _ =>
  some [wRaw1, wRaw2, wRaw3]

/-- A listing fetcher that raises on the pots category `MLA1594`. -/
def cFetchFailOllas : String → Option (List RawResult) := fun id =>
  if id == "MLA1577" then some [wRaw1, wRaw2, wRaw3] else none

/-- A listing fetcher that raises on the blenders category `MLA1577`. -/
def cFetchFailLic : String → Option (List RawResult) := fun id =>
  if id == "MLA1594" then some [wRaw1, wRaw2, wRaw3] else none

/-- The first carousel `chat` builds from the fixtures. -/
def wCar1 : Carousel :=
  ⟨[wListing1], "Licuadoras", "MLA1577", "Licuadoras", "MLA-BLENDERS", 0.25,
   ["q1", "q2"]⟩

/-- The second carousel `chat` builds from the fixtures. -/
def wCar2 : Carousel :=
  ⟨[wListing3], "Ollas", "MLA1594", "Ollas", "MLA-POTS", 0.5, ["q3", "q4"]⟩

/-- The full response of `chat` on the fixtures. -/
def wResp : Response := { message := "Hola", carousels := [wCar1, wCar2] }

/-- The listing batches fetched on the fixtures. -/
def wBatches : List ListingBatch :=
  [ ⟨"MLA1577", [wListing1, wListing2, wListing3]⟩
  , ⟨"MLA1594", [wListing1, wListing2, wListing3]⟩ ]

namespace BuyAssistant

lemma resolveCategory_raw {lookup : String → Option (String × Float)}
    {nm : String} {rc : ResolvedCategory}
    (h : resolveCategory lookup nm = some rc) : rc.category_raw = nm := by
  unfold resolveCategory at h
  cases hl : lookup nm with
  | none => rw [hl] at h; cases h
  | some result =>
    rw [hl] at h
    simp only [] at h
    split at h
    · rw [Option.some_inj] at h
      subst h
      rfl
    · cases h

lemma resolvedOf_mem {plan : Plan} {lookup : String → Option (String × Float)}
    {rc : ResolvedCategory} (h : rc ∈ resolvedOf plan lookup) :
    resolveCategory lookup rc.category_raw = some rc ∧
    ∃ p ∈ plan.categories, p.name = rc.category_raw := by
  unfold resolvedOf at h
  rw [List.mem_filterMap] at h
  obtain ⟨nm, hnm, hres⟩ := h
  have hraw := resolveCategory_raw hres
  rw [List.mem_map] at hnm
  obtain ⟨p, hp, hpn⟩ := hnm
  subst hraw
  exact ⟨hres, p, hp, hpn⟩

lemma fetchOne_ok_inv {fetch : String → Option (List RawResult)}
    {id : String} {b : ListingBatch} (h : fetchOne fetch id = Except.ok b) :
    b.category_id = id ∧
    ∃ raws, fetch id = some raws ∧ raws.mapM mapListing = some b.results := by
  unfold fetchOne at h
  cases hf : fetch id with
  | none => rw [hf] at h; cases h
  | some raws =>
    rw [hf] at h
    simp only [] at h
    cases hm : raws.mapM mapListing with
    | none => rw [hm] at h; cases h
    | some results =>
      rw [hm] at h
      injection h with h
      subst h
      exact ⟨rfl, raws, rfl, hm⟩

lemma fetchOne_error_inv {fetch : String → Option (List RawResult)}
    {id : String} {e : PipelineError} (h : fetchOne fetch id = Except.error e) :
    e = PipelineError.fetchFailed id ∨ e = PipelineError.missingId id := by
  unfold fetchOne at h
  cases hf : fetch id with
  | none =>
    rw [hf] at h
    injection h with h
    exact Or.inl h.symm
  | some raws =>
    rw [hf] at h
    simp only [] at h
    cases hm : raws.mapM mapListing with
    | none =>
      rw [hm] at h
      injection h with h
      exact Or.inr h.symm
    | some results => rw [hm] at h; cases h

lemma fetchBatches_ok_ids {fetch : String → Option (List RawResult)}
    {ids : List String} {bs : List ListingBatch}
    (h : fetchBatches fetch ids = Except.ok bs) :
    bs.map (fun b => b.category_id) = ids := by
  induction ids generalizing bs with
  | nil =>
    unfold fetchBatches at h
    injection h with h
    subst h
    rfl
  | cons id rest ih =>
    unfold fetchBatches at h
    cases h1 : fetchOne fetch id with
    | error e => rw [h1] at h; cases h
    | ok b =>
      rw [h1] at h
      simp only [] at h
      cases h2 : fetchBatches fetch rest with
      | error e => rw [h2] at h; cases h
      | ok bs2 =>
        rw [h2] at h
        injection h with h
        subst h
        simp only [List.map_cons, (fetchOne_ok_inv h1).1, ih h2]

lemma fetchBatches_mem {fetch : String → Option (List RawResult)}
    {ids : List String} {bs : List ListingBatch}
    (h : fetchBatches fetch ids = Except.ok bs) :
    ∀ b ∈ bs, fetchOne fetch b.category_id = Except.ok b := by
  induction ids generalizing bs with
  | nil =>
    unfold fetchBatches at h
    injection h with h
    subst h
    intro b hb
    cases hb
  | cons id rest ih =>
    unfold fetchBatches at h
    cases h1 : fetchOne fetch id with
    | error e => rw [h1] at h; cases h
    | ok b0 =>
      rw [h1] at h
      simp only [] at h
      cases h2 : fetchBatches fetch rest with
      | error e => rw [h2] at h; cases h
      | ok bs2 =>
        rw [h2] at h
        injection h with h
        subst h
        intro b hb
        rcases List.mem_cons.mp hb with hb | hb
        · subst hb
          rw [(fetchOne_ok_inv h1).1]
          exact h1
        · exact ih h2 b hb

lemma fetchBatches_error_inv {fetch : String → Option (List RawResult)}
    {ids : List String} {e : PipelineError}
    (h : fetchBatches fetch ids = Except.error e) :
    ∃ id ∈ ids, e = PipelineError.fetchFailed id ∨ e = PipelineError.missingId id := by
  induction ids generalizing e with
  | nil => unfold fetchBatches at h; cases h
  | cons id rest ih =>
    unfold fetchBatches at h
    cases h1 : fetchOne fetch id with
    | error e1 =>
      rw [h1] at h
      injection h with h
      subst h
      exact ⟨id, List.mem_cons_self id rest, fetchOne_error_inv h1⟩
    | ok b =>
      rw [h1] at h
      simp only [] at h
      cases h2 : fetchBatches fetch rest with
      | error e2 =>
        rw [h2] at h
        injection h with h
        subst h
        obtain ⟨id2, hid2, he2⟩ := ih h2
        exact ⟨id2, List.mem_cons_of_mem id hid2, he2⟩
      | ok bs2 => rw [h2] at h; cases h

lemma fetchBatches_ok_of {fetch : String → Option (List RawResult)}
    {ids : List String}
    (h : ∀ id ∈ ids, ∃ b, fetchOne fetch id = Except.ok b) :
    ∃ bs, fetchBatches fetch ids = Except.ok bs := by
  induction ids with
  | nil => exact ⟨[], rfl⟩
  | cons id rest ih =>
    obtain ⟨b, hb⟩ := h id (List.mem_cons_self id rest)
    obtain ⟨bs, hbs⟩ := ih (fun id2 hid2 => h id2 (List.mem_cons_of_mem id hid2))
    refine ⟨b :: bs, ?_⟩
    unfold fetchBatches
    rw [hb, hbs]

lemma fetchBatches_error_of {fetch : String → Option (List RawResult)}
    {ids : List String} {id : String} {e : PipelineError} (hid : id ∈ ids)
    (h : fetchOne fetch id = Except.error e) :
    ∃ e2, fetchBatches fetch ids = Except.error e2 := by
  induction ids with
  | nil => cases hid
  | cons id0 rest ih =>
    unfold fetchBatches
    cases h1 : fetchOne fetch id0 with
    | error e1 => exact ⟨e1, rfl⟩
    | ok b =>
      simp only []
      rcases List.mem_cons.mp hid with hid0 | hid0
      · subst hid0
        rw [h1] at h
        cases h
      · obtain ⟨e2, he2⟩ := ih hid0
        rw [he2]
        exact ⟨e2, rfl⟩

lemma buildCarousel_ok_inv {plan : Plan} {srs : List ListingBatch}
    {rc : ResolvedCategory} {c : Carousel}
    (h : buildCarousel plan srs rc = Except.ok c) :
    c.category_raw = rc.category_raw ∧ c.category_id = rc.category_id ∧
    c.category_name = rc.category_name ∧ c.domain_id = rc.domain_id ∧
    c.similarity_score = rc.similarity_score ∧
    (∃ batch ∈ srs, batch.category_id = rc.category_id ∧
      c.items = (batch.results.filter
        (fun x => x.domain_id == rc.domain_id)).take ITEMS_BY_CAROUSEL) ∧
    (∃ p, (plan.categories.filter
        (fun x => x.name == rc.category_raw)).head? = some p ∧
      c.questions = p.questions) := by
  unfold buildCarousel at h
  cases h1 : (srs.filter (fun x => x.category_id == rc.category_id)).head? with
  | none => rw [h1] at h; cases h
  | some batch =>
    rw [h1] at h
    simp only [] at h
    cases h2 : (plan.categories.filter (fun x => x.name == rc.category_raw)).head? with
    | none => rw [h2] at h; cases h
    | some proposal =>
      rw [h2] at h
      injection h with h
      subst h
      have hbm : batch ∈ srs.filter (fun x => x.category_id == rc.category_id) :=
        List.mem_of_mem_head? (Option.mem_def.mpr h1)
      rw [List.mem_filter] at hbm
      exact ⟨rfl, rfl, rfl, rfl, rfl,
        ⟨batch, hbm.1, eq_of_beq hbm.2, rfl⟩, proposal, rfl, rfl⟩

lemma head?_filter_of_mem {α : Type} {l : List α} {p : α → Bool} {a : α}
    (ha : a ∈ l) (hp : p a = true) : ∃ b, (l.filter p).head? = some b := by
  cases h : (l.filter p).head? with
  | none =>
    rw [List.head?_eq_none_iff, List.filter_eq_nil_iff] at h
    exact absurd hp (h a ha)
  | some b => exact ⟨b, rfl⟩

lemma buildCarousel_ok_of {plan : Plan} {srs : List ListingBatch}
    {rc : ResolvedCategory}
    (hb : ∃ batch ∈ srs, batch.category_id = rc.category_id)
    (hp : ∃ p ∈ plan.categories, p.name = rc.category_raw) :
    ∃ c, buildCarousel plan srs rc = Except.ok c := by
  obtain ⟨batch, hbm, hbid⟩ := hb
  obtain ⟨p, hpm, hpn⟩ := hp
  obtain ⟨b1, h1⟩ := head?_filter_of_mem (p := fun x => x.category_id == rc.category_id)
    hbm (by simp [hbid])
  obtain ⟨p1, h2⟩ := head?_filter_of_mem (p := fun x => x.name == rc.category_raw)
    hpm (by simp [hpn])
  refine ⟨⟨(b1.results.filter (fun x => x.domain_id == rc.domain_id)).take
      ITEMS_BY_CAROUSEL, rc.category_raw, rc.category_id, rc.category_name,
      rc.domain_id, rc.similarity_score, p1.questions⟩, ?_⟩
  unfold buildCarousel
  simp only [h1, h2]

lemma buildCarousels_ok_inv {plan : Plan} {srs : List ListingBatch}
    {resolved : List ResolvedCategory} {cs : List Carousel}
    (h : buildCarousels plan srs resolved = Except.ok cs) :
    cs.length = resolved.length ∧
    ∀ c ∈ cs, ∃ rc ∈ resolved, buildCarousel plan srs rc = Except.ok c := by
  induction resolved generalizing cs with
  | nil =>
    unfold buildCarousels at h
    injection h with h
    subst h
    exact ⟨rfl, fun c hc => absurd hc (List.not_mem_nil c)⟩
  | cons rc rest ih =>
    unfold buildCarousels at h
    cases h1 : buildCarousel plan srs rc with
    | error e => rw [h1] at h; cases h
    | ok c0 =>
      rw [h1] at h
      simp only [] at h
      cases h2 : buildCarousels plan srs rest with
      | error e => rw [h2] at h; cases h
      | ok cs2 =>
        rw [h2] at h
        injection h with h
        subst h
        obtain ⟨hlen, hmem⟩ := ih h2
        refine ⟨by simp [hlen], fun c hc => ?_⟩
        rcases List.mem_cons.mp hc with hc | hc
        · subst hc
          exact ⟨rc, List.mem_cons_self rc rest, h1⟩
        · obtain ⟨rc2, hrc2, hb2⟩ := hmem c hc
          exact ⟨rc2, List.mem_cons_of_mem rc hrc2, hb2⟩

lemma buildCarousels_ok_of {plan : Plan} {srs : List ListingBatch}
    {resolved : List ResolvedCategory}
    (h : ∀ rc ∈ resolved, ∃ c, buildCarousel plan srs rc = Except.ok c) :
    ∃ cs, buildCarousels plan srs resolved = Except.ok cs := by
  induction resolved with
  | nil => exact ⟨[], rfl⟩
  | cons rc rest ih =>
    obtain ⟨c, hc⟩ := h rc (List.mem_cons_self rc rest)
    obtain ⟨cs, hcs⟩ := ih (fun rc2 hrc2 => h rc2 (List.mem_cons_of_mem rc hrc2))
    refine ⟨c :: cs, ?_⟩
    unfold buildCarousels
    rw [hc, hcs]

/-- The two structural preconditions of the assembler hold for every entry of
`resolvedOf` once the batches of `uqIdsOf` are in hand. -/
lemma buildCarousel_preconditions {plan : Plan}
    {lookup : String → Option (String × Float)}
    {fetch : String → Option (List RawResult)} {srs : List ListingBatch}
    (hfb : fetchBatches fetch (uqIdsOf plan lookup) = Except.ok srs)
    {rc : ResolvedCategory} (hrc : rc ∈ resolvedOf plan lookup) :
    (∃ batch ∈ srs, batch.category_id = rc.category_id) ∧
    (∃ p ∈ plan.categories, p.name = rc.category_raw) := by
  have hids := fetchBatches_ok_ids hfb
  have hidmem : rc.category_id ∈ uqIdsOf plan lookup := by
    unfold uqIdsOf
    rw [List.mem_dedup]
    exact List.mem_map.mpr ⟨rc, hrc, rfl⟩
  rw [← hids] at hidmem
  obtain ⟨batch, hbm, hbid⟩ := List.mem_map.mp hidmem
  exact ⟨⟨batch, hbm, hbid⟩, (resolvedOf_mem hrc).2⟩

lemma chat_ok_inv {plan : Plan} {lookup : String → Option (String × Float)}
    {fetch : String → Option (List RawResult)} {r : Response}
    (h : chat plan lookup fetch = Except.ok r) :
    r.message = plan.message ∧
    ∃ srs, fetchBatches fetch (uqIdsOf plan lookup) = Except.ok srs ∧
      buildCarousels plan srs (resolvedOf plan lookup) = Except.ok r.carousels := by
  unfold chat at h
  cases h1 : fetchBatches fetch (uqIdsOf plan lookup) with
  | error e => rw [h1] at h; cases h
  | ok srs =>
    rw [h1] at h
    simp only [] at h
    cases h2 : buildCarousels plan srs (resolvedOf plan lookup) with
    | error e => rw [h2] at h; cases h
    | ok cs =>
      rw [h2] at h
      injection h with h
      subst h
      exact ⟨rfl, srs, rfl, h2⟩

lemma chat_ok_of_fetch {plan : Plan} {lookup : String → Option (String × Float)}
    {fetch : String → Option (List RawResult)}
    (h : ∀ id ∈ uqIdsOf plan lookup, ∃ b, fetchOne fetch id = Except.ok b) :
    ∃ r, chat plan lookup fetch = Except.ok r ∧
      r.message = plan.message ∧
      r.carousels.length = (resolvedOf plan lookup).length := by
  obtain ⟨srs, hsrs⟩ := fetchBatches_ok_of h
  have hbc : ∀ rc ∈ resolvedOf plan lookup,
      ∃ c, buildCarousel plan srs rc = Except.ok c := fun rc hrc => by
    obtain ⟨hb, hp⟩ := buildCarousel_preconditions hsrs hrc
    exact buildCarousel_ok_of hb hp
  obtain ⟨cs, hcs⟩ := buildCarousels_ok_of hbc
  refine ⟨{ message := plan.message, carousels := cs }, ?_, rfl, ?_⟩
  · unfold chat
    simp only [hsrs, hcs]
  · exact (buildCarousels_ok_inv hcs).1

/-- A proposal name on which the matcher fails contributes no carousel:
every carousel's `category_raw` is the raw name of a successfully resolved
proposal. -/
lemma chat_no_carousel_of_unresolved {plan : Plan}
    {lookup : String → Option (String × Float)}
    {fetch : String → Option (List RawResult)} {r : Response} {nm : String}
    (hres : resolveCategory lookup nm = none)
    (hr : chat plan lookup fetch = Except.ok r) :
    ∀ c ∈ r.carousels, c.category_raw ≠ nm := by
  intro c hc hraw
  obtain ⟨-, srs, hsrs, hbc⟩ := chat_ok_inv hr
  obtain ⟨rc, hrc, hb⟩ := (buildCarousels_ok_inv hbc).2 c hc
  have h1 := (resolvedOf_mem hrc).1
  have h2 := (buildCarousel_ok_inv hb).1
  rw [h2] at hraw
  rw [hraw] at h1
  rw [hres] at h1
  cases h1

end BuyAssistant

/-! The claims. -/

namespace BuyAssistant

/-- Claim C1, counterexample.  The claim says the response's carousels list
has length M minus the number of resolved categories whose listing fetch
failed.  On the two-proposal fixture plan both proposals resolve (M = 2);
when the listing fetch for the pots category raises, the claim predicts a
response with exactly one carousel, but `chat` propagates the exception and
returns no response at all. -/
theorem claim_C1_counterexample :
    (resolvedOf wPlan wLookup).length = 2 ∧
    chat wPlan wLookup cFetchFailOllas
      = Except.error (PipelineError.fetchFailed "MLA1594") ∧
    ¬ ∃ r, chat wPlan wLookup cFetchFailOllas = Except.ok r ∧
        r.carousels.length = 1 := by
  refine ⟨rfl, rfl, ?_⟩
  rintro ⟨r, hr, -⟩
  rw [show chat wPlan wLookup cFetchFailOllas
      = Except.error (PipelineError.fetchFailed "MLA1594") from rfl] at hr
  cases hr

/-- Claim C1, amended.  When no listing fetch fails, the response exists and
its carousels list has length exactly M, the number of proposals that
resolved (duplicated proposals included, one carousel each); when any
resolved category's listing fetch fails, the whole request aborts with an
error instead of dropping only that category's carousels. -/
theorem claim_C1 (plan : Plan) (lookup : String → Option (String × Float))
    (fetch : String → Option (List RawResult))
    (h : ∀ id ∈ uqIdsOf plan lookup, ∃ b, fetchOne fetch id = Except.ok b) :
    ∃ r, chat plan lookup fetch = Except.ok r ∧
      r.carousels.length = (resolvedOf plan lookup).length := by
  obtain ⟨r, hr, -, hlen⟩ := chat_ok_of_fetch h
  exact ⟨r, hr, hlen⟩

/-- Witness for the amended claim C1 on the concrete fixtures. -/
theorem claim_C1_witness :
    ∃ r, chat wPlan wLookup wFetch = Except.ok r ∧
      r.carousels.length = (resolvedOf wPlan wLookup).length :=
  claim_C1 wPlan wLookup wFetch
    (fun id _ => ⟨⟨id, [wListing1, wListing2, wListing3]⟩, rfl⟩)

/-- Claim C2.  Every carousel's items are obtained from the listing batch
fetched for the carousel's category id: filtered to the carousel's
domain id (preserving order) and truncated to `ITEMS_BY_CAROUSEL`; hence
they form a subsequence of that batch, all items share the carousel's
domain id, and there are at most `ITEMS_BY_CAROUSEL` of them. -/
theorem claim_C2 (plan : Plan) (lookup : String → Option (String × Float))
    (fetch : String → Option (List RawResult)) (r : Response)
    (h : chat plan lookup fetch = Except.ok r) (c : Carousel)
    (hc : c ∈ r.carousels) :
    ∃ raws listings, fetch c.category_id = some raws ∧
      raws.mapM mapListing = some listings ∧
      c.items = (listings.filter
        (fun x => x.domain_id == c.domain_id)).take ITEMS_BY_CAROUSEL ∧
      c.items.Sublist listings ∧
      (∀ x ∈ c.items, x.domain_id = c.domain_id) ∧
      c.items.length ≤ ITEMS_BY_CAROUSEL := by
  obtain ⟨-, srs, hsrs, hbc⟩ := chat_ok_inv h
  obtain ⟨rc, hrc, hb⟩ := (buildCarousels_ok_inv hbc).2 c hc
  obtain ⟨hraw, hid, -, hdom, -, ⟨batch, hbm, hbid, hitems⟩, -⟩ :=
    buildCarousel_ok_inv hb
  have hfo := fetchBatches_mem hsrs batch hbm
  obtain ⟨-, raws, hraws, hmapM⟩ := fetchOne_ok_inv hfo
  refine ⟨raws, batch.results, ?_, hmapM, ?_, ?_, ?_, ?_⟩
  · rw [hid, ← hbid]
    exact hraws
  · rw [hitems, hdom]
  · rw [hitems]
    exact (List.take_sublist _ _).trans (List.filter_sublist _)
  · intro x hx
    rw [hitems] at hx
    have hxf := List.mem_filter.mp (List.take_subset _ _ hx)
    rw [hdom]
    exact eq_of_beq hxf.2
  · rw [hitems]
    exact List.length_take_le _ _

/-- Witness for claim C2: the first carousel of the fixture run. -/
theorem claim_C2_witness :
    ∃ raws listings, wFetch wCar1.category_id = some raws ∧
      raws.mapM mapListing = some listings ∧
      wCar1.items = (listings.filter
        (fun x => x.domain_id == wCar1.domain_id)).take ITEMS_BY_CAROUSEL ∧
      wCar1.items.Sublist listings ∧
      (∀ x ∈ wCar1.items, x.domain_id = wCar1.domain_id) ∧
      wCar1.items.length ≤ ITEMS_BY_CAROUSEL :=
  claim_C2 wPlan wLookup wFetch wResp rfl wCar1 (List.mem_cons_self _ _)

/-- Claim C3.  Every carousel's questions equal the questions of the plan
proposal whose name is string-equal to the carousel's `category_raw` (the
uniqueness hypothesis makes "the proposal" well defined). -/
theorem claim_C3 (plan : Plan) (lookup : String → Option (String × Float))
    (fetch : String → Option (List RawResult)) (r : Response)
    (h : chat plan lookup fetch = Except.ok r) (c : Carousel)
    (hc : c ∈ r.carousels) (p : CategoryResponse) (hp : p ∈ plan.categories)
    (hpn : p.name = c.category_raw)
    (huniq : ∀ q ∈ plan.categories, q.name = c.category_raw → q = p) :
    c.questions = p.questions := by
  obtain ⟨-, srs, hsrs, hbc⟩ := chat_ok_inv h
  obtain ⟨rc, hrc, hb⟩ := (buildCarousels_ok_inv hbc).2 c hc
  obtain ⟨hraw, -, -, -, -, -, prop, hhead, hq⟩ := buildCarousel_ok_inv hb
  have hm := List.mem_of_mem_head? (Option.mem_def.mpr hhead)
  rw [List.mem_filter] at hm
  have hpp : prop = p := huniq prop hm.1 (by rw [hraw]; exact eq_of_beq hm.2)
  rw [hq, hpp]

/-- Witness for claim C3: the second carousel of the fixture run and the
"Ollas" proposal. -/
theorem claim_C3_witness :
    wCar2.questions =
      ({ name := "Ollas", questions := ["q3", "q4"] } : CategoryResponse).questions :=
  claim_C3 wPlan wLookup wFetch wResp rfl wCar2
    (List.mem_cons_of_mem _ (List.mem_cons_self _ _))
    { name := "Ollas", questions := ["q3", "q4"] }
    (by decide) rfl (by decide)

end BuyAssistant

namespace BuyAssistant

/-- Claim C4, counterexample.  The claim says a failing listing fetch only
drops that category's carousels while the others are still returned.  On the
fixture plan, when the fetch for the blenders category raises, `chat` lets
the exception escape: no response is produced, so the pots carousel is not
returned either. -/
theorem claim_C4_counterexample :
    chat wPlan wLookup cFetchFailLic
      = Except.error (PipelineError.fetchFailed "MLA1577") ∧
    ¬ ∃ r, chat wPlan wLookup cFetchFailLic = Except.ok r := by
  refine ⟨rfl, ?_⟩
  rintro ⟨r, hr⟩
  rw [show chat wPlan wLookup cFetchFailLic
      = Except.error (PipelineError.fetchFailed "MLA1577") from rfl] at hr
  cases hr

/-- Claim C4, amended.  If the external listing-search call for any resolved
category fails, the exception propagates out of `chat`: the whole request
aborts with an error and no carousels at all are returned, rather than
logging and continuing with the other categories. -/
theorem claim_C4 (plan : Plan) (lookup : String → Option (String × Float))
    (fetch : String → Option (List RawResult))
    (h : ∃ id ∈ uqIdsOf plan lookup, ∃ e, fetchOne fetch id = Except.error e) :
    ∃ e2, chat plan lookup fetch = Except.error e2 := by
  obtain ⟨id, hid, e, he⟩ := h
  obtain ⟨e2, he2⟩ := fetchBatches_error_of hid he
  refine ⟨e2, ?_⟩
  unfold chat
  simp only [he2]

/-- Witness for the amended claim C4 on the concrete fixtures. -/
theorem claim_C4_witness :
    ∃ e2, chat wPlan wLookup cFetchFailLic = Except.error e2 :=
  claim_C4 wPlan wLookup cFetchFailLic
    ⟨"MLA1577", by decide, PipelineError.fetchFailed "MLA1577", rfl⟩

/-- Claim C5.  The search loop iterates over `uqIdsOf`, the deduplicated
resolved category ids: that list is duplicate-free, contains exactly the
category ids of the resolved proposals, and the batch list produced by the
loop carries exactly one `ListingBatch` per entry of it (its category ids
are exactly `uqIdsOf`, in order) — hence exactly one external search call
and one batch per distinct resolved category id. -/
theorem claim_C5 (plan : Plan) (lookup : String → Option (String × Float))
    (fetch : String → Option (List RawResult)) (bs : List ListingBatch)
    (h : fetchBatches fetch (uqIdsOf plan lookup) = Except.ok bs) :
    (uqIdsOf plan lookup).Nodup ∧
    (∀ id, id ∈ uqIdsOf plan lookup ↔
      id ∈ (resolvedOf plan lookup).map (fun rc => rc.category_id)) ∧
    bs.map (fun b => b.category_id) = uqIdsOf plan lookup := by
  refine ⟨?_, ?_, fetchBatches_ok_ids h⟩
  · unfold uqIdsOf
    exact List.nodup_dedup _
  · intro id
    unfold uqIdsOf
    exact List.mem_dedup

/-- Witness for claim C5 on the concrete fixtures. -/
theorem claim_C5_witness :
    (uqIdsOf wPlan wLookup).Nodup ∧
    (∀ id, id ∈ uqIdsOf wPlan wLookup ↔
      id ∈ (resolvedOf wPlan wLookup).map (fun rc => rc.category_id)) ∧
    wBatches.map (fun b => b.category_id) = uqIdsOf wPlan wLookup :=
  claim_C5 wPlan wLookup wFetch wBatches rfl

/-- Claim C6.  When the nearest-neighbour query for a proposal name returns
an empty result set, that proposal resolves to nothing; provided the listing
fetches succeed, the request still completes with one carousel per resolved
proposal and no carousel for the unmatched name. -/
theorem claim_C6 (plan : Plan) (lookup : String → Option (String × Float))
    (fetch : String → Option (List RawResult)) (nm : String)
    (hnm : lookup nm = none)
    (hf : ∀ id ∈ uqIdsOf plan lookup, ∃ b, fetchOne fetch id = Except.ok b) :
    resolveCategory lookup nm = none ∧
    ∃ r, chat plan lookup fetch = Except.ok r ∧
      r.carousels.length = (resolvedOf plan lookup).length ∧
      ∀ c ∈ r.carousels, c.category_raw ≠ nm := by
  have hres : resolveCategory lookup nm = none := by
    unfold resolveCategory
    rw [hnm]
  obtain ⟨r, hr, -, hlen⟩ := chat_ok_of_fetch hf
  exact ⟨hres, r, hr, hlen, chat_no_carousel_of_unresolved hres hr⟩

/-- Witness for claim C6: the matcher finds nothing for "Ollas". -/
theorem claim_C6_witness :
    resolveCategory w6Lookup "Ollas" = none ∧
    ∃ r, chat wPlan w6Lookup wFetch = Except.ok r ∧
      r.carousels.length = (resolvedOf wPlan w6Lookup).length ∧
      ∀ c ∈ r.carousels, c.category_raw ≠ "Ollas" :=
  claim_C6 wPlan w6Lookup wFetch "Ollas" rfl
    (fun id _ => ⟨⟨id, [wListing1, wListing2, wListing3]⟩, rfl⟩)

/-- Claim C7.  The two `list(filter(...))[0]` lookups of the carousel
assembler never fail: on every input, `chat` either returns a response or
fails with one of the two fetch-loop exceptions (a failing external call or
a raw result without an id); the assembler's `internalFault` branches are
unreachable. -/
theorem claim_C7 (plan : Plan) (lookup : String → Option (String × Float))
    (fetch : String → Option (List RawResult)) :
    (∃ r, chat plan lookup fetch = Except.ok r) ∨
    (∃ id, chat plan lookup fetch
      = Except.error (PipelineError.fetchFailed id)) ∨
    (∃ id, chat plan lookup fetch
      = Except.error (PipelineError.missingId id)) := by
  cases hfb : fetchBatches fetch (uqIdsOf plan lookup) with
  | error e =>
    have hchat : chat plan lookup fetch = Except.error e := by
      unfold chat
      simp only [hfb]
    obtain ⟨id, -, he | he⟩ := fetchBatches_error_inv hfb
    · exact Or.inr (Or.inl ⟨id, by rw [hchat, he]⟩)
    · exact Or.inr (Or.inr ⟨id, by rw [hchat, he]⟩)
  | ok srs =>
    have hbc : ∀ rc ∈ resolvedOf plan lookup,
        ∃ c, buildCarousel plan srs rc = Except.ok c := fun rc hrc => by
      obtain ⟨hb, hp⟩ := buildCarousel_preconditions hfb hrc
      exact buildCarousel_ok_of hb hp
    obtain ⟨cs, hcs⟩ := buildCarousels_ok_of hbc
    refine Or.inl ⟨{ message := plan.message, carousels := cs }, ?_⟩
    unfold chat
    simp only [hfb, hcs]

end BuyAssistant

namespace BuyAssistant

/-- Claim C8.  The matcher enforces no minimum-similarity threshold: for any
similarity score whatsoever, a non-empty nearest-neighbour result (with a
well-formed descriptor) is accepted and produces a `ResolvedCategory`
carrying exactly that score. -/
theorem claim_C8 (lookup : String → Option (String × Float)) (nm pc : String)
    (s : Float) (hl : lookup nm = some (pc, s))
    (hlen : 7 < (splitLines pc).length) :
    ∃ rc, resolveCategory lookup nm = some rc ∧
      rc.similarity_score = s ∧ rc.category_raw = nm := by
  unfold resolveCategory
  rw [hl]
  simp only [dif_pos hlen]
  exact ⟨_, rfl, rfl, rfl⟩

/-- Witness for claim C8: a query matched with score -1000.0 is accepted. -/
theorem claim_C8_witness :
    ∃ rc, resolveCategory w8Lookup "Zapatos" = some rc ∧
      rc.similarity_score = (-1000.0 : Float) ∧ rc.category_raw = "Zapatos" :=
  claim_C8 w8Lookup "Zapatos" descLic (-1000.0) rfl (by decide)

/-- Claim C9.  For every raw search result with an `"id"` field, the mapping
yields a `Listing` whose `item_id` is that id and whose other five fields
are the raw values when present and `""` when absent; no error is raised
for a missing optional field. -/
theorem claim_C9 (result : RawResult) (i : String)
    (h : dictGet result "id" = some i) :
    mapListing result = some
      { item_id := i
      , title := (dictGet result "title").getD ""
      , permalink := (dictGet result "permalink").getD ""
      , thumbnail := (dictGet result "thumbnail").getD ""
      , category_id := (dictGet result "category_id").getD ""
      , domain_id := (dictGet result "domain_id").getD "" } := by
  unfold mapListing
  rw [h]

/-- Witness for claim C9: a raw result with three fields absent maps to a
listing with empty strings, raising nothing. -/
theorem claim_C9_witness :
    mapListing wRaw2 = some
      { item_id := "MLA222"
      , title := (dictGet wRaw2 "title").getD ""
      , permalink := (dictGet wRaw2 "permalink").getD ""
      , thumbnail := (dictGet wRaw2 "thumbnail").getD ""
      , category_id := (dictGet wRaw2 "category_id").getD ""
      , domain_id := (dictGet wRaw2 "domain_id").getD "" } :=
  claim_C9 wRaw2 "MLA222" rfl

/-- Claim C10.  A proposal whose nearest-neighbour query returns a match
with a malformed descriptor (fewer than 8 newline-separated lines) is
dropped exactly like an empty result: the `IndexError` raised by the
positional parse is caught by the same handler, no `ResolvedCategory` is
produced for it, and (when the listing fetches succeed) the request
completes with no carousel for that proposal name. -/
theorem claim_C10 (plan : Plan) (lookup : String → Option (String × Float))
    (fetch : String → Option (List RawResult)) (nm pc : String) (s : Float)
    (hl : lookup nm = some (pc, s)) (hlen : (splitLines pc).length < 8)
    (hf : ∀ id ∈ uqIdsOf plan lookup, ∃ b, fetchOne fetch id = Except.ok b) :
    resolveCategory lookup nm = none ∧
    ∃ r, chat plan lookup fetch = Except.ok r ∧
      ∀ c ∈ r.carousels, c.category_raw ≠ nm := by
  have hres : resolveCategory lookup nm = none := by
    unfold resolveCategory
    rw [hl]
    simp only [dif_neg (by omega : ¬ 7 < (splitLines pc).length)]
  obtain ⟨r, hr, -, -⟩ := chat_ok_of_fetch hf
  exact ⟨hres, r, hr, chat_no_carousel_of_unresolved hres hr⟩

/-- Witness for claim C10: a 2-line descriptor for "Ollas" is dropped and
the fixture request still completes without an "Ollas" carousel. -/
theorem claim_C10_witness :
    resolveCategory w10Lookup "Ollas" = none ∧
    ∃ r, chat wPlan w10Lookup wFetch = Except.ok r ∧
      ∀ c ∈ r.carousels, c.category_raw ≠ "Ollas" :=
  claim_C10 wPlan w10Lookup wFetch "Ollas" descBad 0.9 rfl (by decide)
    (fun id _ => ⟨⟨id, [wListing1, wListing2, wListing3]⟩, rfl⟩)

end BuyAssistant
